import Mathlib

/-!
Shallow embedding of the slice_manage video pipeline, checked against its
natural-language specification.

Source files embedded here:
* `src/processors/video_slicer.py` — `VideoSlicer._perform_slicing`
* `src/processors/video_analyzer.py` — `VideoAnalyzer.analyze_video_slice`,
  `VideoAnalyzer._extract_frames`
* `src/processors/video_analyzer_gemini.py` — the zero-segment promotion in
  `VideoAnalyzerGemini.analyze_video`
* `src/tasks.py` — `VideoProcessorTask.acquire_file_lock`, `process_video_task`
* `src/main.py` — `VideoProcessor.process_single_video` (segment loop and
  progress reporting), `VideoProcessor.process_all_videos_batch`
-/

namespace SliceManage

/-! ## Segmenter: `VideoSlicer._perform_slicing` (video_slicer.py 140-231) -/

/-- A detected scene, as returned by `scenedetect.detect`: the pair
`scene[0].get_frames(), scene[1].get_frames()` read at video_slicer.py line 157. -/
structure Scene where
  startFrame : Nat
  endFrame : Nat
deriving DecidableEq, Repr

/-- One entry of `slice_info["segments"]` as built at video_slicer.py lines 213-221.
Times are rationals: `start_time = start_frame / fps`, `end_time = end_frame / fps`,
`duration = end_time - start_time`. -/
structure SegmentInfo where
  index : Nat
  start_time : ℚ
  end_time : ℚ
  duration : ℚ
  start_frame : Nat
  end_frame : Nat
deriving DecidableEq, Repr

/-- The `for i, scene in enumerate(scenes)` loop of `_perform_slicing`
(video_slicer.py 155-228). `i` is the 0-based position in the original scene
list. A candidate of duration `< minDuration` is skipped (lines 170-172); a
scene whose ffmpeg extraction fails raises `CalledProcessError`, which the
surrounding `except ... continue` (lines 226-228) turns into a skip — modelled
by the oracle `ffmpegOk`. A kept scene appends a record with `index = i + 1`
(line 214). -/
def performSlicingGo (fps minDuration : ℚ) (ffmpegOk : Nat → Bool) :
    Nat → List Scene → List SegmentInfo
  | _, [] => []
  | i, sc :: rest =>
    if (sc.endFrame : ℚ) / fps - (sc.startFrame : ℚ) / fps < minDuration then
      performSlicingGo fps minDuration ffmpegOk (i + 1) rest
    else if ffmpegOk i = false then
      performSlicingGo fps minDuration ffmpegOk (i + 1) rest
    else
      { index := i + 1
        start_time := (sc.startFrame : ℚ) / fps
        end_time := (sc.endFrame : ℚ) / fps
        duration := (sc.endFrame : ℚ) / fps - (sc.startFrame : ℚ) / fps
        start_frame := sc.startFrame
        end_frame := sc.endFrame } :: performSlicingGo fps minDuration ffmpegOk (i + 1) rest

/-- `VideoSlicer._perform_slicing`, restricted to the `segments` list it returns. -/
def performSlicing (scenes : List Scene) (fps minDuration : ℚ) (ffmpegOk : Nat → Bool) :
    List SegmentInfo :=
  performSlicingGo fps minDuration ffmpegOk 0 scenes

/-- Concrete scene list used for the segmenter claims: three back-to-back scenes
at fps 10 of durations 10s, 0.1s and 9.9s; with `minDuration = 1/2` the middle
candidate is discarded. -/
def scenesAB : List Scene := [⟨0, 100⟩, ⟨100, 101⟩, ⟨101, 200⟩]

/-! ## Segment Analyzer retry loop: `VideoAnalyzer.analyze_video_slice`
(video_analyzer.py 197-259) -/

/-- Model of the `AnalysisResult` dataclass (video_analyzer.py 15-23), restricted
to the fields the retry loop sets: `success`, `analysis_info['analysis_result']`
(present exactly on success) and `message`. -/
structure AnalysisResult where
  success : Bool
  analysis_result : Option String
  message : String
deriving DecidableEq, Repr

/-- Observable trace of one `analyze_video_slice` retry loop: how many attempts
were made, the argument of each `time.sleep` call (line 249), and the returned
result. -/
structure RetryTrace where
  attempts : Nat
  waits : List Nat
  result : AnalysisResult
deriving DecidableEq, Repr

/-- `str(last_error)` as interpolated at line 256; `last_error` starts as `None`. -/
def lastErrorStr : Option String → String
  | none => "None"
  | some e => e

/-- The failure message built at video_analyzer.py line 256. -/
def failureMessage (lastError : Option String) : String :=
  "没有返回有效解析结果。[错误原因：" ++ lastErrorStr lastError ++ "]"

/-- The `while retry_count < max_retries` loop (video_analyzer.py 202-259).
`outcome n` is the result of the API request of attempt number `n` (0-based
`retry_count` at the time of the call): `Except.ok` is a valid response,
`Except.error` any exception (network failure or the `ValueError` raised on an
invalid/empty response at line 221).  On failure `retry_count` is incremented
(line 243) and, when `retry_count < max_retries` still holds, the loop sleeps
`2 ** retry_count` seconds (lines 246-249).  `fuel` equals
`maxRetries - retry_count`, so fuel 0 is exactly the loop exit, after which the
failed `AnalysisResult` of lines 254-259 is returned (no exception escapes the
loop). -/
def analyzeGo (outcome : Nat → Except String String) (maxRetries : Nat) :
    Nat → Nat → List Nat → Option String → RetryTrace
  | 0, retry_count, waits, lastError =>
      ⟨retry_count, waits, ⟨false, none, failureMessage lastError⟩⟩
  | fuel + 1, retry_count, waits, _lastError =>
      match outcome retry_count with
      | .ok content => ⟨retry_count + 1, waits, ⟨true, some content, "分析完成"⟩⟩
      | .error e =>
          let rc := retry_count + 1
          let waits' := if rc < maxRetries then waits ++ [2 ^ rc] else waits
          analyzeGo outcome maxRetries fuel rc waits' (some e)

/-- `analyze_video_slice` retry phase with the source's constants:
`max_retries = 3`, `retry_count = 0`, `last_error = None` (lines 198-200). -/
def analyzeVideoSlice (outcome : Nat → Except String String) : RetryTrace :=
  analyzeGo outcome 3 3 0 [] none

/-! ## Frame sampler: `VideoAnalyzer._extract_frames` (video_analyzer.py 68-91) -/

/-- `np.linspace(start, stop, num)` over ℚ (endpoint included, singleton for
`num = 1`). -/
def linspace (start stop : ℚ) (num : Nat) : List ℚ :=
  if num = 0 then []
  else if num = 1 then [start]
  else (List.range num).map fun i : Nat => start + (stop - start) * (i : ℚ) / ((num : ℚ) - 1)

/-- `astype(int)` / `dtype=int`: truncation toward zero. -/
def intTrunc (q : ℚ) : Int :=
  if q < 0 then -(Rat.floor (-q)) else Rat.floor q

/-- Model of `cv2.VideoCapture`: opening never raises; an unopenable clip reports
`CAP_PROP_FRAME_COUNT = 0`.  `read p` is `some frameId` when positioning at `p`
and decoding succeeds (`ret` true at line 80-81), `none` otherwise. -/
structure Capture where
  totalFrames : Nat
  read : Int → Option Nat

/-- `_extract_frames`: sample `numFrames` indices with
`np.linspace(0, total_frames - 1, num_frames, dtype=int)` (line 73) and keep the
frames whose `cap.read()` succeeded (lines 78-84).  The loop has no error path
for unreadable frames: a failed read is silently dropped, and the collected
(possibly short, possibly empty) list is returned. -/
def extractFrames (cap : Capture) (numFrames : Nat) : List Nat :=
  let frameIndices := (linspace 0 ((cap.totalFrames : ℚ) - 1) numFrames).map intTrunc
  frameIndices.filterMap cap.read

/-! ## Resource lock: `VideoProcessorTask.acquire_file_lock` (tasks.py 88-126)
and the prologue/finally of `process_video_task` (tasks.py 174-185, 368-372) -/

/-- Outcome of `open` + `fcntl.flock(f, LOCK_EX | LOCK_NB)`:
`ok` — lock taken; `wouldBlock` — `IOError` with errno `EACCES`/`EAGAIN`
(the key is already held elsewhere; `LOCK_NB` makes this immediate, not
blocking); `otherIOError` — `IOError` with any other errno (tasks.py 116-120);
`otherExc` — any non-IOError exception (tasks.py 121-126). -/
inductive FlockOutcome
  | ok
  | wouldBlock
  | otherIOError
  | otherExc
deriving DecidableEq, Repr

/-- `acquire_file_lock`: returns `(成功获取锁?, 锁文件对象)`.  The lock-file
object is modelled as `Option Unit`. On `wouldBlock` it returns
`(False, None)` (line 115); on any other error it returns `(True, None)` —
"在发生错误时假设获取锁成功，继续处理" (lines 120, 126). -/
def acquire_file_lock : FlockOutcome → Bool × Option Unit
  | .ok => (true, some ())
  | .wouldBlock => (false, none)
  | .otherIOError => (true, none)
  | .otherExc => (true, none)

/-- Observable trace of `process_video_task` around the lock: the returned
`status`, whether the per-video processing body (tasks.py 187-358) ran at all,
and whether the `finally` block (368-372) actually released a lock. -/
structure TaskTrace where
  status : String
  processed : Bool
  released : Bool
deriving DecidableEq, Repr

/-- `process_video_task` lock prologue (tasks.py 176-185) and `finally`
(368-372).  If `lock_acquired` is false the task returns
`{'status': 'skipped', ...}` before any processing.  Otherwise the body runs
(its own result status abstracted as `bodyStatus`) and the `finally` block
releases the lock only when `lock_file` is not `None`. -/
def process_video_task (flockOut : FlockOutcome) (bodyStatus : String) : TaskTrace :=
  let acq := acquire_file_lock flockOut
  if acq.1 = false then
    { status := "skipped", processed := false, released := false }
  else
    { status := bodyStatus, processed := true, released := acq.2.isSome }

/-! ## Segment loop of the two pipeline variants (main.py 173-199,
tasks.py 281-331) -/

/-- The segment loop of `VideoProcessor.process_single_video` (main.py 173-199),
restricted to the threading of the previous-analysis text.  `texts` is the
analysis text produced for each segment (the loop's success path: on analyzer
failure main.py line 192 would raise on `None`).  At the top of every iteration
line 188 assigns `pre_result = ""`; line 189 calls the analyzer with
`prev_analysis_result=pre_result`; line 192 assigns the fresh analysis text to
`pre_result`, which the next iteration's line 188 overwrites.  Returns the
`prev_analysis_result` value passed to the analyzer at each iteration. -/
def mainLoopPrevs : List String → String → List String
  | [], _ => []
  | text :: rest, _pre_result => "" :: mainLoopPrevs rest text

/-- `mainLoopPrevs` entered as in the source (no prior `pre_result` binding
exists before the loop; the seed is never read). -/
def processSlicesMain (texts : List String) : List String :=
  mainLoopPrevs texts ""

/-- Per-slice input of the `tasks.py` segment loop: whether the MinIO upload
succeeded (line 298-305) and the analyzer outcome (`some text` on success,
`none` on a failed `AnalysisResult`, lines 312-321). -/
structure SliceIn where
  uploadOk : Bool
  analysis : Option String
deriving DecidableEq, Repr

/-- Observable trace of one iteration of the `tasks.py` segment loop:
`prevPassed` is the `prev_analysis_result` handed to
`analyzer.analyze_video_slice` (`none` when the upload failed and no analysis
call was made), `ingested` whether `kb_handler.create_data` ran (line 327). -/
structure SliceStep where
  prevPassed : Option String
  ingested : Bool
deriving DecidableEq, Repr

/-- The `for idx, slice_path in enumerate(slice_paths, 1)` loop of
`process_video_task` (tasks.py 283-331).  Upload failure `continue`s (line
303-305); analysis failure `continue`s without touching
`prev_analysis_result` (319-321); on success line 324 updates
`prev_analysis_result` and line 327 ingests. -/
def tasksLoopGo : List SliceIn → String → List SliceStep
  | [], _ => []
  | s :: rest, prev =>
    if s.uploadOk = false then
      ⟨none, false⟩ :: tasksLoopGo rest prev
    else
      match s.analysis with
      | none => ⟨some prev, false⟩ :: tasksLoopGo rest prev
      | some t => ⟨some prev, true⟩ :: tasksLoopGo rest t

/-- The `tasks.py` loop with its initialisation `prev_analysis_result = ""`
(tasks.py line 281). -/
def processSlicesTasks (slices : List SliceIn) : List SliceStep :=
  tasksLoopGo slices ""

/-- Number of knowledge-base ingestions performed by one `tasks.py` segment
loop. -/
def ingestedCount (slices : List SliceIn) : Nat :=
  (processSlicesTasks slices).countP (·.ingested)

/-! ## Zero-segment promotion of `VideoAnalyzerGemini.analyze_video`
(video_analyzer_gemini.py 131-138) — the only place in the repository that
promotes a whole video into a single implicit segment. -/

/-- The fields of the promoted segment dict (video_analyzer_gemini.py 134-137). -/
structure GeminiSegment where
  output_path : String
  duration : ℚ
deriving DecidableEq, Repr

/-- `if len(slice_result.slice_info['segments']) == 0:` replace the segment list
by one whole-video segment (video_analyzer_gemini.py 131-138). -/
def geminiSegments (segments : List GeminiSegment) (video_path : String)
    (total_duration : ℚ) : List GeminiSegment :=
  if segments.isEmpty then [⟨video_path, total_duration⟩] else segments

/-! ## Progress reporting of `VideoProcessor.process_single_video`
(main.py 92-96, 154, 167, 197-199, 218-222) -/

/-- The keys of the `slice_info` dict built by `_perform_slicing`
(video_slicer.py 147-153). -/
def sliceInfoKeys : List String :=
  ["original_video", "total_duration", "total_frames", "fps", "segments"]

/-- main.py line 170: `total_slices = len(slices.slice_info)`.  `slice_info` is
a dict, so `len` counts its keys — always 5, whatever the number of
segments. -/
def total_slices_main : Nat := sliceInfoKeys.length

/-- The successive values written to
`processing_status[video_uuid]['progress']` on the success path of
`process_single_video`, for a video with `numSegments` surviving segments:
0 (line 95), 35 (line 154), 50 (line 167), then
`50 + (idx / total_slices * 50)` for `idx = 1..numSegments` (line 198), then
100 at completion (line 221). -/
def mainProgressSequence (numSegments : Nat) : List ℚ :=
  [0, 35, 50]
    ++ ((List.range numSegments).map fun k =>
        50 + ((k + 1 : Nat) : ℚ) / (total_slices_main : ℚ) * 50)
    ++ [100]

/-! ## Batch orchestrator: `VideoProcessor.process_all_videos_batch`
(main.py 293-317) -/

/-- One element of `gather(*tasks, return_exceptions=True)`: either a result
dict or the exception the per-video pipeline raised. -/
inductive VideoRes
  | ok (r : String)
  | exc (e : String)
deriving DecidableEq, Repr

/-- One entry appended to `results`. -/
inductive ResultEntry
  | succ (video r : String)
  | failed (video e : String)
deriving DecidableEq, Repr

/-- The `for video, res in zip(batch, batch_results)` loop of one retry pass
(main.py 299-311): an exception appends a failed entry only when
`retry == max_retries - 1` (303-308); the first non-exception result is
appended and then `break` ends the zip loop (310-311), so later pairs of the
pass are never examined. -/
def passAppends : List (String × VideoRes) → Bool → List ResultEntry
  | [], _ => []
  | (v, .exc e) :: rest, isLast =>
      (if isLast then [.failed v e] else []) ++ passAppends rest isLast
  | (v, .ok r) :: _, _ => [.succ v r]

/-- `process_all_videos_batch` for a single batch (main.py 294-311): the
`for retry in range(max_retries)` loop is never broken out of, so
`process_batch` re-runs the whole batch exactly `max_retries` times;
`outcome retry v` is what the pipeline of video `v` produced on pass
`retry`. -/
def batchResults (batch : List String) (outcome : Nat → String → VideoRes)
    (max_retries : Nat) : List ResultEntry :=
  ((List.range max_retries).map fun retry =>
    passAppends (batch.map fun v => (v, outcome retry v)) (retry == max_retries - 1)).flatten

/-- Number of result entries naming a given video. -/
def entriesFor (rs : List ResultEntry) (video : String) : Nat :=
  rs.countP fun e =>
    match e with
    | .succ v _ => v == video
    | .failed v _ => v == video

/-! ## Supporting lemmas about the segmenter loop -/

/-- Every segment kept by the slicing loop comes from a scene at a definite
position of the remaining scene list: its `index` is the loop counter plus that
position plus 1, and its `start_time` is that scene's start frame over fps. -/
theorem performSlicingGo_mem (fps minDuration : ℚ) (ffmpegOk : Nat → Bool) :
    ∀ (scenes : List Scene) (i : Nat) (seg : SegmentInfo),
      seg ∈ performSlicingGo fps minDuration ffmpegOk i scenes →
      ∃ k sc, scenes[k]? = some sc ∧ sc ∈ scenes ∧ seg.index = i + k + 1 ∧
        seg.start_time = (sc.startFrame : ℚ) / fps := by
  intro scenes
  induction scenes with
  | nil => intro i seg h; simp [performSlicingGo] at h
  | cons sc rest ih =>
    intro i seg h
    simp only [performSlicingGo] at h
    split at h
    · rcases ih (i + 1) seg h with ⟨k, sc', hk, hmem, hidx, hst⟩
      exact ⟨k + 1, sc', by simpa using hk, List.mem_cons_of_mem _ hmem, by omega, hst⟩
    · split at h
      · rcases ih (i + 1) seg h with ⟨k, sc', hk, hmem, hidx, hst⟩
        exact ⟨k + 1, sc', by simpa using hk, List.mem_cons_of_mem _ hmem, by omega, hst⟩
      · rcases List.mem_cons.mp h with h | h
        · subst h
          exact ⟨0, sc, by simp, List.mem_cons_self _ _, rfl, rfl⟩
        · rcases ih (i + 1) seg h with ⟨k, sc', hk, hmem, hidx, hst⟩
          exact ⟨k + 1, sc', by simpa using hk, List.mem_cons_of_mem _ hmem, by omega, hst⟩

/-- When the input scenes have strictly increasing start frames (as scenedetect
produces) and fps is positive, the kept segments are pairwise strictly
increasing in `index` and in `start_time`. -/
theorem performSlicingGo_pairwise (fps minDuration : ℚ) (ffmpegOk : Nat → Bool)
    (hfps : 0 < fps) :
    ∀ (scenes : List Scene) (i : Nat),
      scenes.Pairwise (fun a b => a.startFrame < b.startFrame) →
      (performSlicingGo fps minDuration ffmpegOk i scenes).Pairwise
        (fun a b => a.index < b.index ∧ a.start_time < b.start_time) := by
  intro scenes
  induction scenes with
  | nil => intro i _; simp [performSlicingGo]
  | cons sc rest ih =>
    intro i hpw
    rcases List.pairwise_cons.mp hpw with ⟨hhead, htail⟩
    simp only [performSlicingGo]
    split
    · exact ih (i + 1) htail
    · split
      · exact ih (i + 1) htail
      · refine List.Pairwise.cons ?_ (ih (i + 1) htail)
        intro b hb
        rcases performSlicingGo_mem fps minDuration ffmpegOk rest (i + 1) b hb with
          ⟨k, sc', hk, hmem, hidx, hst⟩
        refine ⟨?_, ?_⟩
        · show i + 1 < b.index
          omega
        · show (sc.startFrame : ℚ) / fps < b.start_time
          rw [hst]
          have hlt : (sc.startFrame : ℚ) < (sc'.startFrame : ℚ) := by
            exact_mod_cast hhead sc' hmem
          exact (div_lt_div_iff_of_pos_right hfps).mpr hlt

/-- Every segment kept by the slicing loop has duration at least the configured
minimum, because shorter candidates are skipped before extraction. -/
theorem performSlicingGo_minDuration (fps minDuration : ℚ) (ffmpegOk : Nat → Bool) :
    ∀ (scenes : List Scene) (i : Nat) (seg : SegmentInfo),
      seg ∈ performSlicingGo fps minDuration ffmpegOk i scenes →
      minDuration ≤ seg.duration := by
  intro scenes
  induction scenes with
  | nil => intro i seg h; simp [performSlicingGo] at h
  | cons sc rest ih =>
    intro i seg h
    simp only [performSlicingGo] at h
    split at h
    · exact ih (i + 1) seg h
    · rename_i hdur
      split at h
      · exact ih (i + 1) seg h
      · rcases List.mem_cons.mp h with h | h
        · subst h
          exact le_of_not_lt hdur
        · exact ih (i + 1) seg h

/-! ## Supporting lemmas about the frame sampler and the pipeline loops -/

/-- `linspace` always yields exactly `num` samples. -/
theorem linspace_length (start stop : ℚ) (num : Nat) :
    (linspace start stop num).length = num := by
  unfold linspace
  split_ifs with h1 h2
  · simp [h1]
  · simp [h2]
  · rw [List.length_map, List.length_range]

/-- In the main.py segment loop every analyzer call receives the empty string
as its previous-analysis text, whatever value the loop state held: line 188
overwrites `pre_result` with `""` at the top of every iteration. -/
theorem mainLoopPrevs_all_empty :
    ∀ (texts : List String) (pre : String),
      mainLoopPrevs texts pre = texts.map fun _ => "" := by
  intro texts
  induction texts with
  | nil => intro _; rfl
  | cons t rest ih => intro pre; simp [mainLoopPrevs, ih]

/-- In the tasks.py segment loop, whenever a slice's upload and analysis
succeed with text `t`, the immediately following slice (if its upload succeeds)
is analyzed with `prev_analysis_result = t`, whatever state `prev` the loop
carried into the pair. -/
theorem tasksLoop_threads_adjacent (prev : String) (s₁ s₂ : SliceIn)
    (rest : List SliceIn) (t : String)
    (hu1 : s₁.uploadOk = true) (ha : s₁.analysis = some t) (hu2 : s₂.uploadOk = true) :
    (tasksLoopGo (s₁ :: s₂ :: rest) prev)[1]? = some ⟨some t, s₂.analysis.isSome⟩ := by
  cases hsa : s₂.analysis with
  | none => simp [tasksLoopGo, hu1, ha, hu2, hsa]
  | some u => simp [tasksLoopGo, hu1, ha, hu2, hsa]

/-- Evaluation of the segmenter on the concrete scene list `scenesAB`: the
middle candidate (duration 1/10 < 1/2) is discarded, the kept segments carry
indices 1 and 3. -/
theorem performSlicing_scenesAB_eval :
    performSlicing scenesAB 10 (1/2) (fun _ => true) =
      [⟨1, 0, 10, 10, 0, 100⟩, ⟨3, 101/10, 20, 99/10, 101, 200⟩] := by
  norm_num [performSlicing, performSlicingGo, scenesAB]

/-- Evaluation of the main.py progress sequence for a 6-segment video. -/
theorem mainProgressSequence_six :
    mainProgressSequence 6 = [0, 35, 50, 60, 70, 80, 90, 100, 110, 100] := by
  norm_num [mainProgressSequence, total_slices_main, sliceInfoKeys, List.range_succ]

/-! ## Claims -/

/-- Claim C1 (code_bug evidence): evaluated on a two-segment video whose first
analysis succeeds with non-empty text, `main.py` passes the empty string to
both analyzer calls — the reset at line 188 destroys the threading — while the
`tasks.py` variant of the same loop passes the first segment's text to the
second call. -/
theorem c1_main_never_threads :
    processSlicesMain ["第一段解析文本", "第二段解析文本"] = ["", ""] ∧
    (processSlicesTasks [⟨true, some "第一段解析文本"⟩, ⟨true, some "第二段解析文本"⟩]).map
        SliceStep.prevPassed = [some "", some "第一段解析文本"] := by
  decide

/-- Claim C2 counterexample: on a video with zero surviving segments both
pipeline segment loops run zero iterations — zero uploads, zero analyses and
zero ingestions, not the single promoted whole-video segment the claim
requires. -/
theorem c2_counterexample :
    processSlicesTasks [] = [] ∧ processSlicesMain [] = [] ∧ ingestedCount [] ≠ 1 := by
  decide

/-- Claim C2 amended: the whole-video promotion exists only in
`VideoAnalyzerGemini.analyze_video`, which replaces an empty segment list by a
single full-length segment; the Video Pipeline's own loops (main.py, tasks.py)
process an empty segment list as-is, performing no ingestion. -/
theorem c2_amended (video_path : String) (total_duration : ℚ) :
    processSlicesTasks [] = [] ∧ processSlicesMain [] = [] ∧
    geminiSegments [] video_path total_duration = [⟨video_path, total_duration⟩] :=
  ⟨rfl, rfl, rfl⟩

/-- Claim C3 counterexample: on a run where every request fails, the analyzer
makes 3 attempts but sleeps only twice — 2 then 4 seconds; no 8-second wait
ever happens, refuting the claimed wait times 2, 4, 8. -/
theorem c3_counterexample :
    (analyzeVideoSlice fun _ => .error "网络错误").attempts = 3 ∧
    (analyzeVideoSlice fun _ => .error "网络错误").waits = [2, 4] ∧
    (analyzeVideoSlice fun _ => .error "网络错误").waits ≠ [2, 4, 8] := by
  decide

/-- Claim C3 amended: when every attempt fails the analyzer makes exactly 3
attempts, waits `2^attempt` seconds after failed attempts 1 and 2 (wait times
2 and 4 seconds; no wait follows the final failure) and then returns — without
raising — a failed `AnalysisResult` whose message carries the last error. -/
theorem c3_amended (outcome : Nat → Except String String) (errs : Nat → String)
    (h : ∀ i, i < 3 → outcome i = .error (errs i)) :
    analyzeVideoSlice outcome =
      ⟨3, [2, 4], ⟨false, none, failureMessage (some (errs 2))⟩⟩ := by
  have h0 := h 0 (by norm_num)
  have h1 := h 1 (by norm_num)
  have h2 := h 2 (by norm_num)
  simp [analyzeVideoSlice, analyzeGo, h0, h1, h2]

/-- Witness for the amended claim C3 at a concrete all-failing outcome. -/
theorem c3_witness :
    (∀ i, i < 3 → (fun _ => (Except.error "连接超时" : Except String String)) i =
        Except.error ((fun _ => "连接超时") i)) ∧
    analyzeVideoSlice (fun _ => .error "连接超时") =
      ⟨3, [2, 4], ⟨false, none, failureMessage (some "连接超时")⟩⟩ :=
  ⟨fun _ _ => rfl, c3_amended _ _ fun _ _ => rfl⟩

/-- Claim C4 counterexample: at fps 10 with minimum duration 1/2, the middle
0.1-second candidate of `scenesAB` is discarded and the surviving segments keep
indices [1, 3] — the original enumeration positions — not the contiguous
sequence [1, 2] the claim requires. -/
theorem c4_counterexample :
    (performSlicing scenesAB 10 (1/2) fun _ => true).map SegmentInfo.index = [1, 3] ∧
    (performSlicing scenesAB 10 (1/2) fun _ => true).map SegmentInfo.index ≠
      List.range' 1 (performSlicing scenesAB 10 (1/2) fun _ => true).length := by
  rw [performSlicing_scenesAB_eval]
  exact ⟨rfl, by decide⟩

/-- Claim C4 amended: each surviving segment's index is its position in the
original scene enumeration plus one, so indices are strictly increasing but a
discarded candidate leaves a gap; given strictly increasing scene start frames
and positive fps, surviving segments are also strictly increasing in start
time. -/
theorem c4_amended (scenes : List Scene) (fps minDuration : ℚ) (ffmpegOk : Nat → Bool)
    (hfps : 0 < fps)
    (hsorted : scenes.Pairwise fun a b => a.startFrame < b.startFrame) :
    (performSlicing scenes fps minDuration ffmpegOk).Pairwise
      (fun a b => a.index < b.index ∧ a.start_time < b.start_time) ∧
    ∀ seg ∈ performSlicing scenes fps minDuration ffmpegOk,
      ∃ k sc, scenes[k]? = some sc ∧ seg.index = k + 1 := by
  constructor
  · exact performSlicingGo_pairwise fps minDuration ffmpegOk hfps scenes 0 hsorted
  · intro seg hseg
    rcases performSlicingGo_mem fps minDuration ffmpegOk scenes 0 seg hseg with
      ⟨k, sc, hk, _, hidx, _⟩
    exact ⟨k, sc, hk, by omega⟩

/-- Witness for the amended claim C4 on the concrete scene list `scenesAB`. -/
theorem c4_witness :
    ((0 : ℚ) < 10 ∧ scenesAB.Pairwise (fun a b => a.startFrame < b.startFrame)) ∧
    ((performSlicing scenesAB 10 (1/2) fun _ => true).Pairwise
        (fun a b => a.index < b.index ∧ a.start_time < b.start_time) ∧
      ∀ seg ∈ performSlicing scenesAB 10 (1/2) fun _ => true,
        ∃ k sc, scenesAB[k]? = some sc ∧ seg.index = k + 1) :=
  ⟨⟨by norm_num, by decide⟩,
    c4_amended scenesAB 10 (1/2) (fun _ => true) (by norm_num) (by decide)⟩

/-- Claim C5 (code_bug evidence): because main.py line 170 computes
`total_slices = len(slices.slice_info)` — the 5 dict keys, not the number of
segments — a video with 6 surviving segments drives the reported progress to
110, above 100, after which the completion step drops it back to 100, so the
sequence is neither bounded by 100 nor non-decreasing. -/
theorem c5_progress_overflow :
    (110 : ℚ) ∈ mainProgressSequence 6 ∧
    ¬ (∀ p ∈ mainProgressSequence 6, p ≤ 100) ∧
    ¬ (mainProgressSequence 6).Chain' (· ≤ ·) := by
  rw [mainProgressSequence_six]
  refine ⟨by norm_num, fun h => absurd (h 110 (by norm_num)) (by norm_num), fun h => ?_⟩
  simp [List.chain'_cons] at h
  norm_num at h

/-- Claim C6 (code_bug evidence): with a batch of two always-succeeding videos
and `max_retries = 3`, the orchestrator records video "A" three times and video
"B" never — the zip-loop `break` at main.py line 311 stops recording at the
first success of each pass and the retry loop unconditionally re-runs the whole
batch.  The spec's own acceptance scenario (5 videos, the third failing twice
then succeeding) likewise collapses to three copies of the first video's
result. -/
theorem c6_break_mangles_results :
    batchResults ["A", "B"] (fun _ v => .ok v) 3 =
      [.succ "A" "A", .succ "A" "A", .succ "A" "A"] ∧
    entriesFor (batchResults ["A", "B"] (fun _ v => .ok v) 3) "A" = 3 ∧
    entriesFor (batchResults ["A", "B"] (fun _ v => .ok v) 3) "B" = 0 ∧
    batchResults ["v1", "v2", "v3", "v4", "v5"]
        (fun r v => if v == "v3" && decide (r < 2) then .exc "分析失败" else .ok v) 3 =
      [.succ "v1" "v1", .succ "v1" "v1", .succ "v1" "v1"] := by
  decide

/-- Claim C7 counterexample: an unopenable clip (`CAP_PROP_FRAME_COUNT = 0`,
every read failing) makes `_extract_frames` return the empty list — an ordinary
value, not an error — although 2 frames were requested. -/
theorem c7_counterexample :
    extractFrames ⟨0, fun _ => none⟩ 2 = [] ∧ ([] : List Nat).length < 2 := by
  decide

/-- Claim C7 amended: `_extract_frames` never reports a short read; it silently
returns only the frames that decoded, hence at most the requested count, and a
capture whose reads all fail yields the empty list. -/
theorem c7_amended (cap : Capture) (K : Nat) :
    (extractFrames cap K).length ≤ K ∧
    extractFrames ⟨cap.totalFrames, fun _ => none⟩ K = [] := by
  constructor
  · calc (extractFrames cap K).length
        ≤ ((linspace 0 ((cap.totalFrames : ℚ) - 1) K).map intTrunc).length :=
          List.length_filterMap_le _ _
      _ = K := by simp [linspace_length]
  · simp [extractFrames, List.filterMap_eq_nil_iff]

/-- Claim C8: when the lock key is already held elsewhere, `flock` raises
`EAGAIN`, `acquire_file_lock` immediately returns `(False, None)` and the task
returns a `skipped` result without running any of the processing body. -/
theorem c8_skipped (flockOut : FlockOutcome) (bodyStatus : String)
    (h : flockOut = FlockOutcome.wouldBlock) :
    acquire_file_lock flockOut = (false, none) ∧
    process_video_task flockOut bodyStatus = ⟨"skipped", false, false⟩ := by
  subst h
  exact ⟨rfl, rfl⟩

/-- Witness for claim C8 at the concrete held-elsewhere outcome. -/
theorem c8_witness :
    FlockOutcome.wouldBlock = FlockOutcome.wouldBlock ∧
    (acquire_file_lock FlockOutcome.wouldBlock = (false, none) ∧
      process_video_task FlockOutcome.wouldBlock "success" = ⟨"skipped", false, false⟩) :=
  ⟨rfl, c8_skipped FlockOutcome.wouldBlock "success" rfl⟩

/-- Claim C9: every segment returned by `_perform_slicing` has duration at
least the configured minimum — shorter candidates are skipped and produce no
clip. -/
theorem c9_min_duration (scenes : List Scene) (fps minDuration : ℚ)
    (ffmpegOk : Nat → Bool) (seg : SegmentInfo)
    (h : seg ∈ performSlicing scenes fps minDuration ffmpegOk) :
    minDuration ≤ seg.duration :=
  performSlicingGo_minDuration fps minDuration ffmpegOk scenes 0 seg h

/-- Witness for claim C9 on the first surviving segment of `scenesAB`. -/
theorem c9_witness :
    ((⟨1, 0, 10, 10, 0, 100⟩ : SegmentInfo) ∈
        performSlicing scenesAB 10 (1/2) fun _ => true) ∧
    (1/2 : ℚ) ≤ (⟨1, 0, 10, 10, 0, 100⟩ : SegmentInfo).duration :=
  ⟨by rw [performSlicing_scenesAB_eval]; simp,
    c9_min_duration scenesAB 10 (1/2) (fun _ => true) _
      (by rw [performSlicing_scenesAB_eval]; simp)⟩

/-- Claim C10: on any lock-file error other than `EACCES`/`EAGAIN`,
`acquire_file_lock` returns `(True, None)`, the task proceeds exactly as if
the lock were held — so mutual exclusion is not guaranteed — and the
guaranteed-release block releases nothing because `lock_file` is `None`. -/
theorem c10_error_proceeds_unlocked (flockOut : FlockOutcome) (bodyStatus : String)
    (h : flockOut = FlockOutcome.otherIOError ∨ flockOut = FlockOutcome.otherExc) :
    acquire_file_lock flockOut = (true, none) ∧
    process_video_task flockOut bodyStatus = ⟨bodyStatus, true, false⟩ := by
  rcases h with h | h <;> subst h <;> exact ⟨rfl, rfl⟩

/-- Witness for claim C10 at a concrete unexpected I/O error. -/
theorem c10_witness :
    (FlockOutcome.otherIOError = FlockOutcome.otherIOError ∨
      FlockOutcome.otherIOError = FlockOutcome.otherExc) ∧
    (acquire_file_lock FlockOutcome.otherIOError = (true, none) ∧
      process_video_task FlockOutcome.otherIOError "success" = ⟨"success", true, false⟩) :=
  ⟨Or.inl rfl, c10_error_proceeds_unlocked FlockOutcome.otherIOError "success" (Or.inl rfl)⟩

end SliceManage
